import Mathlib

/-!
Lean model of `src/ShuntingYardSample.cpp`: infix-to-RPN conversion by the
Shunting-Yard algorithm (`ShuntingYard::shuntInfixToRPN`), RPN evaluation
(`RPN::calculatePostfix`), and the orchestrating `evaluate`.

Modelling conventions:
* `std::string` tokens are `String`; token vectors are `List String`.
* Stacks are lists whose head is the top; queues are lists whose head is the
  front, with pushes appending at the back.
* `int` values are modelled as `Int`; 32-bit overflow (undefined behaviour in
  C++) and `std::stoi` range errors are outside the ranges exercised here.
* Reaching C++ undefined behaviour — calling `top()` on an empty `std::stack`,
  or integer division by zero — is modelled by a distinguished `crash` / `ub`
  outcome, since the source guarantees nothing at such a point.
* The source reports failures by printing a message and returning `false`;
  each distinct failure message is modelled as a distinct error value.
-/

namespace ShuntingYard

/-- Source `isOperator` (ShuntingYardSample.cpp lines 40-44). -/
def isOperator (token : String) : Bool :=
  token == "+" || token == "-" || token == "*" || token == "/"

/-- Source `isParenthesis` (lines 50-53). -/
def isParenthesis (token : String) : Bool :=
  token == "(" || token == ")"

/-- Loop of source `verifyInteger` (lines 59-86): scan the characters,
returning `false` at the first non-digit; the flag records whether at least
one digit has been seen, so the empty token yields `false`. -/
def verifyIntegerAux : List Char → Bool → Bool
  | [], isInteger => isInteger
  | c :: cs, _ => if !c.isDigit then false else verifyIntegerAux cs true

/-- Source `verifyInteger` (lines 59-86): `true` iff the token is non-empty
and every character is a decimal digit. -/
def verifyInteger (token : String) : Bool :=
  verifyIntegerAux token.toList false

/-- The two failure messages `shuntInfixToRPN` can print before returning
`false` (lines 177 and 203, and line 186 for the invalid-token case). -/
inductive ShuntError where
  | MismatchedParenthesis
  | InvalidToken
deriving DecidableEq

/-- Private working storage of class `ShuntingYard` (lines 96-104): the
operator stack (head = top) and the output queue (head = front). -/
structure ShuntState where
  operatorStack : List String
  outputQueue : List String
deriving DecidableEq

/-- Outcome of processing one token inside `shuntInfixToRPN`: continue with a
new state, return `false` with a failure message, or reach undefined
behaviour. -/
inductive StepOut where
  | ok (s : ShuntState)
  | err (e : ShuntError)
  | crash
deriving DecidableEq

/-- The right-parenthesis loop of `shuntInfixToRPN` (lines 147-179), entered
with `topToken` the cached `operatorStack.top()` and `rest` the stack below
it.  While `topToken` is not a left parenthesis it is pushed onto the output
queue and popped; if the stack empties first, the post-loop check
`topToken != "("` fails with the mismatched-parenthesis message; if the left
parenthesis is found it is popped and discarded. -/
def rparenAux : String → List String → List String → StepOut
  | topToken, rest, outputQueue =>
    if topToken = "(" then
      StepOut.ok ⟨rest, outputQueue⟩
    else
      match rest with
      | [] => StepOut.err ShuntError.MismatchedParenthesis
      | t :: rest' => rparenAux t rest' (outputQueue ++ [topToken])

/-- Right-parenthesis handling (lines 144-180): the source reads
`operatorStack.top()` (line 147) before any emptiness check, so encountering
a right parenthesis with an empty operator stack is undefined behaviour. -/
def handleRParen (s : ShuntState) : StepOut :=
  match s.operatorStack with
  | [] => StepOut.crash
  | topToken :: rest => rparenAux topToken rest s.outputQueue

/-- One iteration of the token loop of `shuntInfixToRPN` (lines 118-191):
integers go to the output queue, operators and left parentheses are pushed
onto the operator stack, right parentheses unwind the stack, and anything
else fails with the invalid-token message — except that the comparison on
line 184 is against the C literal string of a lone NUL, which as a
`const char*` is the empty string, so an empty token is silently skipped. -/
def shuntStep (s : ShuntState) (currentToken : String) : StepOut :=
  if verifyInteger currentToken then
    StepOut.ok ⟨s.operatorStack, s.outputQueue ++ [currentToken]⟩
  else if isOperator currentToken then
    StepOut.ok ⟨currentToken :: s.operatorStack, s.outputQueue⟩
  else if currentToken = "(" then
    StepOut.ok ⟨currentToken :: s.operatorStack, s.outputQueue⟩
  else if currentToken = ")" then
    handleRParen s
  else if currentToken ≠ "" then
    StepOut.err ShuntError.InvalidToken
  else
    StepOut.ok s

/-- The token loop of `shuntInfixToRPN`, iterated over the remaining input
tokens. -/
def shuntLoop : ShuntState → List String → StepOut
  | s, [] => StepOut.ok s
  | s, t :: ts =>
    match shuntStep s t with
    | StepOut.ok s' => shuntLoop s' ts
    | StepOut.err e => StepOut.err e
    | StepOut.crash => StepOut.crash

/-- The operator-stack drain after the token loop (lines 195-210): pop every
remaining token onto the output queue, failing with the
mismatched-parenthesis message if a parenthesis is met. -/
def drainStack : List String → List String → Except ShuntError (List String)
  | [], outputQueue => Except.ok outputQueue
  | topToken :: rest, outputQueue =>
    if isParenthesis topToken then Except.error ShuntError.MismatchedParenthesis
    else drainStack rest (outputQueue ++ [topToken])

/-- The final copy loop (lines 213-221): the output queue is appended, front
first, to the caller-supplied `returnArray`. -/
def copyQueue : List String → List String → List String
  | [], returnArray => returnArray
  | x :: xs, returnArray => copyQueue xs (returnArray ++ [x])

/-- Overall result of `shuntInfixToRPN`: `ok` carries the updated
`returnArray` after a `return true`; `fail` carries the failure message and
the caller-supplied `returnArray` as it stands at a `return false`; `crash`
is undefined behaviour. -/
inductive ShuntResult where
  | ok (returnArray : List String)
  | fail (e : ShuntError) (returnArray : List String)
  | crash
deriving DecidableEq

/-- Source `ShuntingYard::shuntInfixToRPN` (lines 115-224), with the
pass-by-reference `returnArray` threaded explicitly.  The member containers
start empty: `evaluate` constructs a fresh `ShuntingYard` per call. -/
def shuntInfixToRPN (inputTokens : List String) (returnArray : List String) : ShuntResult :=
  match shuntLoop ⟨[], []⟩ inputTokens with
  | StepOut.crash => ShuntResult.crash
  | StepOut.err e => ShuntResult.fail e returnArray
  | StepOut.ok s =>
    match drainStack s.operatorStack s.outputQueue with
    | Except.error e => ShuntResult.fail e returnArray
    | Except.ok q => ShuntResult.ok (copyQueue q returnArray)

/-- The two failure messages `calculatePostfix` can print before returning
`false` (lines 346 and 354). -/
inductive EvalError where
  | InsufficientOperands
  | InvalidToken
deriving DecidableEq

/-- Overall result of `RPN::calculatePostfix`; `ub` marks reaching C++
undefined behaviour (integer division by zero, or `top()` on an empty value
stack). -/
inductive EvalResult where
  | ok (result : Int)
  | fail (e : EvalError)
  | ub
deriving DecidableEq

/-- Outcome of one iteration of the token loop of `calculatePostfix`:
continue with a new value stack, return early with a result, return `false`
with a failure message, or reach undefined behaviour. -/
inductive EvalStepOut where
  | push (valueStack : List Int)
  | ret (result : Int)
  | fail (e : EvalError)
  | ub
deriving DecidableEq

/-- Source `std::stoi` (line 260) restricted to the all-digit tokens it is
applied to: the decimal value of the digits. -/
def stoi (token : String) : Int :=
  Int.ofNat (token.toList.foldl (fun n c => 10 * n + (c.toNat - 48)) 0)

/-- One iteration of the token loop of `calculatePostfix` (lines 251-358).
An integer token is parsed and pushed.  For an operator: with exactly one
value on the stack, that value is returned immediately (lines 271-277); with
two or more, `arg1` is the first pop and `arg2` the second, and the source
pushes `arg1 + arg2`, `arg1 - arg2`, `arg1 * arg2` (lines 297, 310, 323) or
`arg2 / arg1` (line 338, with no zero check, so a zero `arg1` is undefined
behaviour); with an empty stack it fails with the not-enough-arguments
message.  Any other token fails with the invalid-expression message. -/
def calcStep (valueStack : List Int) (currentToken : String) : EvalStepOut :=
  if verifyInteger currentToken then
    EvalStepOut.push (stoi currentToken :: valueStack)
  else if isOperator currentToken then
    match valueStack with
    | [v] => EvalStepOut.ret v
    | arg1 :: arg2 :: rest =>
      if currentToken = "+" then
        EvalStepOut.push ((arg1 + arg2) :: rest)
      else if currentToken = "-" then
        EvalStepOut.push ((arg1 - arg2) :: rest)
      else if currentToken = "*" then
        EvalStepOut.push ((arg1 * arg2) :: rest)
      else if currentToken = "/" then
        if arg1 = 0 then
          EvalStepOut.ub
        else
          EvalStepOut.push (Int.tdiv arg2 arg1 :: rest)
      else
        EvalStepOut.push valueStack
    | [] => EvalStepOut.fail EvalError.InsufficientOperands
  else
    EvalStepOut.fail EvalError.InvalidToken

/-- The token loop of `calculatePostfix` followed by the final
`result = valueStack.top(); return true;` (lines 360-363), which performs no
size check: with an empty value stack the final `top()` is undefined
behaviour, and with several values the top one is returned. -/
def calcLoop : List Int → List String → EvalResult
  | valueStack, [] =>
    match valueStack with
    | [] => EvalResult.ub
    | top :: _ => EvalResult.ok top
  | valueStack, currentToken :: ts =>
    match calcStep valueStack currentToken with
    | EvalStepOut.push s => calcLoop s ts
    | EvalStepOut.ret r => EvalResult.ok r
    | EvalStepOut.fail e => EvalResult.fail e
    | EvalStepOut.ub => EvalResult.ub

/-- Source `RPN::calculatePostfix` (lines 246-364): the value stack starts
empty, as `evaluate` constructs a fresh `RPN` per call. -/
def calculatePostfix (inputTokens : List String) : EvalResult :=
  calcLoop [] inputTokens

/-- Word accumulation of the `istringstream >> temp` tokenisation loop of
`evaluate` (lines 404-416): maximal runs of non-whitespace characters, in
order.  `cur` holds the current run, reversed. -/
def wordsAux : List Char → List Char → List String
  | [], [] => []
  | [], c :: cs => [String.mk (c :: cs).reverse]
  | c :: cs, cur =>
    if c.isWhitespace then
      match cur with
      | [] => wordsAux cs []
      | _ :: _ => String.mk cur.reverse :: wordsAux cs []
    else
      wordsAux cs (c :: cur)

/-- The tokenisation loop of `evaluate` (lines 404-416): split the expression
on whitespace.  The last extraction attempt fails at end of input but its
empty `temp` is still pushed, so the token vector always ends with `""`. -/
def tokenize (expression : String) : List String :=
  wordsAux expression.toList [] ++ [""]

/-- Overall outcome of `evaluate` (lines 382-444), tagging which stage
returned `false`; `ub` marks undefined behaviour in either stage. -/
inductive EvaluationOutcome where
  | ok (result : Int)
  | shuntFail (e : ShuntError)
  | evalFail (e : EvalError)
  | ub
deriving DecidableEq

/-- Source `evaluate` (lines 382-444): tokenise the expression, shunt the
tokens into a fresh output vector, then calculate the postfix result. -/
def evaluate (expression : String) : EvaluationOutcome :=
  match shuntInfixToRPN (tokenize expression) [] with
  | ShuntResult.crash => EvaluationOutcome.ub
  | ShuntResult.fail e _ => EvaluationOutcome.shuntFail e
  | ShuntResult.ok shuntedOutput =>
    match calculatePostfix shuntedOutput with
    | EvalResult.ok r => EvaluationOutcome.ok r
    | EvalResult.fail e => EvaluationOutcome.evalFail e
    | EvalResult.ub => EvaluationOutcome.ub

/-- Invariant of the operator stack: it only ever holds left parentheses and
operator tokens. -/
def StackOK (stack : List String) : Prop :=
  ∀ t ∈ stack, t = "(" ∨ isOperator t = true

/-- Invariant of the output queue (and of the final result): it holds no
parenthesis token. -/
def QueueOK (outputQueue : List String) : Prop :=
  ∀ t ∈ outputQueue, isParenthesis t = false

theorem isOperator_eq {t : String} (h : isOperator t = true) :
    t = "+" ∨ t = "-" ∨ t = "*" ∨ t = "/" := by
  simp only [isOperator, Bool.or_eq_true, beq_iff_eq] at h
  tauto

theorem isOperator_not_int {t : String} (h : isOperator t = true) :
    verifyInteger t = false := by
  rcases isOperator_eq h with h1 | h1 | h1 | h1 <;> subst h1 <;> decide

theorem isOperator_not_paren {t : String} (h : isOperator t = true) :
    isParenthesis t = false := by
  rcases isOperator_eq h with h1 | h1 | h1 | h1 <;> subst h1 <;> decide

theorem verifyInteger_not_paren {t : String} (h : verifyInteger t = true) :
    isParenthesis t = false := by
  cases hp : isParenthesis t
  · rfl
  · exfalso
    have hor : t = "(" ∨ t = ")" := by
      simp only [isParenthesis, Bool.or_eq_true, beq_iff_eq] at hp
      exact hp
    rcases hor with h1 | h1 <;> subst h1 <;> exact absurd h (by decide)

theorem queueOK_append {q : List String} {t : String} (hq : QueueOK q)
    (ht : isParenthesis t = false) : QueueOK (q ++ [t]) := by
  intro x hx
  rcases List.mem_append.1 hx with h | h
  · exact hq x h
  · rw [List.mem_singleton] at h
    subst h
    exact ht

theorem rparenAux_no_lparen :
    ∀ (rest : List String) (topToken : String) (outputQueue : List String),
      topToken ≠ "(" → "(" ∉ rest →
      rparenAux topToken rest outputQueue = StepOut.err ShuntError.MismatchedParenthesis := by
  intro rest
  induction rest with
  | nil =>
      intro topToken q ht _
      rw [rparenAux]
      simp [ht]
  | cons t rest ih =>
      intro topToken q ht hr
      have ht' : t ≠ "(" := by
        intro h
        exact hr (by simp [h])
      have hr' : "(" ∉ rest := by
        intro h
        exact hr (List.mem_cons_of_mem _ h)
      rw [rparenAux]
      rw [if_neg ht]
      exact ih t (q ++ [topToken]) ht' hr'

theorem drainStack_paren :
    ∀ (stack outputQueue : List String), (∃ t ∈ stack, isParenthesis t = true) →
      drainStack stack outputQueue = Except.error ShuntError.MismatchedParenthesis := by
  intro stack
  induction stack with
  | nil =>
      intro q h
      simp at h
  | cons a s ih =>
      intro q h
      rw [drainStack]
      by_cases ha : isParenthesis a = true
      · rw [if_pos ha]
      · rw [if_neg ha]
        apply ih
        rcases h with ⟨t, ht, hp⟩
        rcases List.mem_cons.1 ht with h1 | h1
        · subst h1
          exact absurd hp ha
        · exact ⟨t, h1, hp⟩

theorem rparenAux_inv :
    ∀ (rest : List String) (topToken : String) (q : List String) (s' : ShuntState),
      StackOK (topToken :: rest) → QueueOK q →
      rparenAux topToken rest q = StepOut.ok s' →
      StackOK s'.operatorStack ∧ QueueOK s'.outputQueue := by
  intro rest
  induction rest with
  | nil =>
      intro topToken q s' hstk hq h
      rw [rparenAux] at h
      by_cases ht : topToken = "("
      · rw [if_pos ht] at h
        simp only [StepOut.ok.injEq] at h
        subst h
        exact ⟨fun t ht' => absurd ht' (List.not_mem_nil t), hq⟩
      · rw [if_neg ht] at h
        simp at h
  | cons t rest ih =>
      intro topToken q s' hstk hq h
      rw [rparenAux] at h
      by_cases ht : topToken = "("
      · rw [if_pos ht] at h
        simp only [StepOut.ok.injEq] at h
        subst h
        refine ⟨?_, hq⟩
        intro x hx
        exact hstk x (List.mem_cons_of_mem _ hx)
      · rw [if_neg ht] at h
        refine ih t (q ++ [topToken]) s' ?_ ?_ h
        · intro x hx
          exact hstk x (List.mem_cons_of_mem _ hx)
        · refine queueOK_append hq ?_
          rcases hstk topToken (List.mem_cons_self _ _) with h1 | h1
          · exact absurd h1 ht
          · exact isOperator_not_paren h1

theorem shuntStep_inv {s s' : ShuntState} {tok : String}
    (hstk : StackOK s.operatorStack) (hq : QueueOK s.outputQueue)
    (h : shuntStep s tok = StepOut.ok s') :
    StackOK s'.operatorStack ∧ QueueOK s'.outputQueue := by
  unfold shuntStep at h
  by_cases h1 : verifyInteger tok = true
  · rw [if_pos h1] at h
    injection h with h
    subst h
    exact ⟨hstk, queueOK_append hq (verifyInteger_not_paren h1)⟩
  · rw [if_neg h1] at h
    by_cases h2 : isOperator tok = true
    · rw [if_pos h2] at h
      injection h with h
      subst h
      refine ⟨?_, hq⟩
      intro x hx
      rcases List.mem_cons.1 hx with hx | hx
      · subst hx
        exact Or.inr h2
      · exact hstk x hx
    · rw [if_neg h2] at h
      by_cases h3 : tok = "("
      · rw [if_pos h3] at h
        injection h with h
        subst h
        refine ⟨?_, hq⟩
        intro x hx
        rcases List.mem_cons.1 hx with hx | hx
        · subst hx
          exact Or.inl h3
        · exact hstk x hx
      · rw [if_neg h3] at h
        by_cases h4 : tok = ")"
        · rw [if_pos h4] at h
          unfold handleRParen at h
          cases hstack : s.operatorStack with
          | nil =>
              rw [hstack] at h
              exact StepOut.noConfusion h
          | cons topToken rest =>
              rw [hstack] at h
              exact rparenAux_inv rest topToken s.outputQueue s' (hstack ▸ hstk) hq h
        · rw [if_neg h4] at h
          by_cases h5 : tok = ""
          · rw [if_neg (not_not_intro h5)] at h
            injection h with h
            subst h
            exact ⟨hstk, hq⟩
          · rw [if_pos h5] at h
            exact StepOut.noConfusion h

theorem shuntLoop_inv :
    ∀ (ts : List String) (s s' : ShuntState),
      StackOK s.operatorStack → QueueOK s.outputQueue →
      shuntLoop s ts = StepOut.ok s' →
      StackOK s'.operatorStack ∧ QueueOK s'.outputQueue := by
  intro ts
  induction ts with
  | nil =>
      intro s s' hstk hq h
      rw [shuntLoop] at h
      simp only [StepOut.ok.injEq] at h
      subst h
      exact ⟨hstk, hq⟩
  | cons t ts ih =>
      intro s s' hstk hq h
      rw [shuntLoop] at h
      cases hstep : shuntStep s t with
      | ok s1 =>
          rw [hstep] at h
          obtain ⟨a, b⟩ := shuntStep_inv hstk hq hstep
          exact ih s1 s' a b h
      | err e =>
          rw [hstep] at h
          simp at h
      | crash =>
          rw [hstep] at h
          simp at h

theorem drainStack_qok :
    ∀ (stack q q' : List String), QueueOK q →
      drainStack stack q = Except.ok q' → QueueOK q' := by
  intro stack
  induction stack with
  | nil =>
      intro q q' hq h
      rw [drainStack] at h
      simp only [Except.ok.injEq] at h
      subst h
      exact hq
  | cons a s ih =>
      intro q q' hq h
      rw [drainStack] at h
      by_cases ha : isParenthesis a = true
      · rw [if_pos ha] at h
        simp at h
      · rw [if_neg ha] at h
        exact ih (q ++ [a]) q' (queueOK_append hq (by simpa using ha)) h

theorem copyQueue_eq : ∀ (xs arr : List String), copyQueue xs arr = arr ++ xs := by
  intro xs
  induction xs with
  | nil =>
      intro arr
      simp [copyQueue]
  | cons x xs ih =>
      intro arr
      rw [copyQueue, ih]
      simp

/-- C1: the claim states that for subtraction and division the result pushed
is `arg2 OP arg1` (second-popped value on the left), so that the postfix of
"a - b" evaluates to a - b.  The source only reverses the operands for
division: for subtraction (line 310) it pushes `arg1 - arg2`, so the postfix
of "5 - 3", namely ["5", "3", "-"], evaluates to 3 - 5 = -2 instead of 2 —
the whole pipeline gives `evaluate "5 - 3" = -2`. -/
theorem claim_C1_subtraction_order :
    calculatePostfix ["5", "3", "-"] = EvalResult.ok (-2) ∧
    evaluate "5 - 3" = EvaluationOutcome.ok (-2) :=
  ⟨by decide, by decide⟩

/-- C2 (amended): with a nonzero first-popped divisor `arg1`, the division
step pushes the truncating quotient `arg2 / arg1`, and "( 10 / 3 )" evaluates
to 3; but with a zero divisor the source divides with no zero check, which is
undefined behaviour — there is no `DivisionByZero` failure path, so
"( 5 / 0 )" reaches undefined behaviour. -/
theorem claim_C2_division :
    (∀ (arg1 arg2 : Int) (rest : List Int), arg1 ≠ 0 →
        calcStep (arg1 :: arg2 :: rest) "/" =
          EvalStepOut.push (Int.tdiv arg2 arg1 :: rest)) ∧
    (∀ (arg2 : Int) (rest : List Int),
        calcStep ((0 : Int) :: arg2 :: rest) "/" = EvalStepOut.ub) ∧
    evaluate "( 10 / 3 )" = EvaluationOutcome.ok 3 ∧
    evaluate "( 5 / 0 )" = EvaluationOutcome.ub := by
  refine ⟨?_, ?_, by decide, by decide⟩
  · intro arg1 arg2 rest h
    have hstep : calcStep (arg1 :: arg2 :: rest) "/" =
        if arg1 = 0 then EvalStepOut.ub
        else EvalStepOut.push (Int.tdiv arg2 arg1 :: rest) := rfl
    rw [hstep, if_neg h]
  · intro arg2 rest
    rfl

/-- Witness for C2: dividing with divisor 2 and dividend 10 pushes the
quotient 5. -/
theorem claim_C2_witness :
    (2 : Int) ≠ 0 ∧
    calcStep [(2 : Int), (10 : Int)] "/" = EvalStepOut.push [Int.tdiv 10 2] :=
  ⟨by decide, claim_C2_division.1 2 10 [] (by decide)⟩

/-- Counterexample for C2 as stated: the postfix of "( 5 / 0 )" does not fail
with a DivisionByZero error — the evaluator reaches undefined behaviour
(division by zero with no check). -/
theorem claim_C2_counterexample :
    calculatePostfix ["5", "0", "/"] = EvalResult.ub :=
  by decide

/-- C3 (amended): after the token loop the source runs
`result = valueStack.top(); return true;` with no size check, so whenever the
value stack is non-empty its top value is returned as the result — also when
more than one value remains — and with an empty stack the final `top()` is
undefined behaviour; no MalformedExpression failure exists. -/
theorem claim_C3_no_final_check :
    (∀ (top : Int) (rest : List Int),
        calcLoop (top :: rest) ([] : List String) = EvalResult.ok top) ∧
    calcLoop ([] : List Int) ([] : List String) = EvalResult.ub ∧
    calculatePostfix ["1", "2"] = EvalResult.ok 2 ∧
    calculatePostfix ([] : List String) = EvalResult.ub := by
  refine ⟨?_, by decide, by decide, by decide⟩
  intro top rest
  rfl

/-- Counterexample for C3 as stated: evaluating ["7", "8"] ends with two
values on the stack, yet the evaluator returns success with the top value 8
instead of failing with a MalformedExpression error. -/
theorem claim_C3_counterexample :
    calculatePostfix ["7", "8"] = EvalResult.ok 8 :=
  by decide

/-- C4 (amended): a right parenthesis that unwinds a non-empty operator stack
holding no left parenthesis fails with the mismatched-parenthesis error, and
so does the final drain whenever a parenthesis remains on the stack; in
particular shunting the tokens of "( 1 + ( 12 * 2 )" fails this way.  (A
right parenthesis arriving while the operator stack is already empty instead
reads the top of the empty stack — undefined behaviour.) -/
theorem claim_C4_mismatched :
    (∀ (s : ShuntState), s.operatorStack ≠ [] → "(" ∉ s.operatorStack →
        shuntStep s ")" = StepOut.err ShuntError.MismatchedParenthesis) ∧
    (∀ (stack outputQueue : List String), (∃ t ∈ stack, isParenthesis t = true) →
        drainStack stack outputQueue = Except.error ShuntError.MismatchedParenthesis) ∧
    shuntInfixToRPN (tokenize "( 1 + ( 12 * 2 )") [] =
      ShuntResult.fail ShuntError.MismatchedParenthesis [] := by
  refine ⟨?_, drainStack_paren, by decide⟩
  intro s hne hmem
  have h4 : shuntStep s ")" = handleRParen s := rfl
  rw [h4]
  cases hstack : s.operatorStack with
  | nil => exact absurd hstack hne
  | cons topToken rest =>
      rw [hstack] at hmem
      unfold handleRParen
      rw [hstack]
      exact rparenAux_no_lparen rest topToken s.outputQueue
        (fun h => hmem (by simp [h]))
        (fun h => hmem (List.mem_cons_of_mem _ h))

/-- Witness for C4: a right parenthesis meeting the stack ["+"] fails with
the mismatched-parenthesis error. -/
theorem claim_C4_witness :
    (ShuntState.mk ["+"] []).operatorStack ≠ [] ∧
    "(" ∉ (ShuntState.mk ["+"] []).operatorStack ∧
    shuntStep (ShuntState.mk ["+"] []) ")" =
      StepOut.err ShuntError.MismatchedParenthesis :=
  ⟨by decide, by decide,
    claim_C4_mismatched.1 (ShuntState.mk ["+"] []) (by decide) (by decide)⟩

/-- Counterexample for C4 as stated: the token sequence [")"] has unbalanced
parentheses, yet the shunter does not fail with the mismatched-parenthesis
error — line 147 calls `top()` on the empty operator stack, which is
undefined behaviour. -/
theorem claim_C4_counterexample :
    shuntInfixToRPN [")"] [] = ShuntResult.crash :=
  by decide

/-- C5: an operator token met while the value stack holds exactly one value
makes the evaluator return that value immediately as the final result: the
remaining tokens (the operator included) are never examined and no error is
raised. -/
theorem claim_C5_early_return :
    ∀ (v : Int) (t : String) (ts : List String), isOperator t = true →
      calcLoop [v] (t :: ts) = EvalResult.ok v := by
  intro v t ts h
  have hstep : calcStep [v] t = EvalStepOut.ret v := by
    simp [calcStep, isOperator_not_int h, h]
  simp [calcLoop, hstep]

/-- Witness for C5: the value 7 with remaining tokens ["+", "oops"] is
returned at once, the garbage token never being reached. -/
theorem claim_C5_witness :
    isOperator "+" = true ∧
    calcLoop [(7 : Int)] ["+", "oops"] = EvalResult.ok 7 :=
  ⟨by decide, claim_C5_early_return 7 "+" ["oops"] (by decide)⟩

/-- C6: every operator token is pushed onto the operator stack
unconditionally — no precedence comparison, and nothing is popped: the
resulting state is exactly the old one with the operator consed onto the
stack and the output queue untouched. -/
theorem claim_C6_push_unconditional :
    ∀ (s : ShuntState) (t : String), isOperator t = true →
      shuntStep s t =
        StepOut.ok (ShuntState.mk (t :: s.operatorStack) s.outputQueue) := by
  intro s t h
  simp [shuntStep, isOperator_not_int h, h]

/-- Witness for C6: pushing "*" onto the stack ["("] yields ["*", "("] with
the queue unchanged. -/
theorem claim_C6_witness :
    isOperator "*" = true ∧
    shuntStep (ShuntState.mk ["("] ["1"]) "*" =
      StepOut.ok (ShuntState.mk ["*", "("] ["1"]) :=
  ⟨by decide, claim_C6_push_unconditional (ShuntState.mk ["("] ["1"]) "*" (by decide)⟩

/-- C7: the sample expression "4 + ( 12 / ( 1 * 2 ) )" shunts to exactly
["4", "12", "1", "2", "*", "/", "+"] and evaluates to the integer 10. -/
theorem claim_C7_sample_expression :
    shuntInfixToRPN (tokenize "4 + ( 12 / ( 1 * 2 ) )") [] =
      ShuntResult.ok ["4", "12", "1", "2", "*", "/", "+"] ∧
    evaluate "4 + ( 12 / ( 1 * 2 ) )" = EvaluationOutcome.ok 10 :=
  ⟨by decide, by decide⟩

/-- C8: a token that is not an integer, not an operator, not a parenthesis
and not empty makes the shunter fail with the invalid-token error (so the
tokens of "1 + x" fail that way), while the empty sentinel token is silently
skipped, leaving the state untouched. -/
theorem claim_C8_invalid_token :
    (∀ (s : ShuntState) (t : String),
        verifyInteger t = false → isOperator t = false → t ≠ "(" → t ≠ ")" → t ≠ "" →
        shuntStep s t = StepOut.err ShuntError.InvalidToken) ∧
    (∀ (s : ShuntState), shuntStep s "" = StepOut.ok s) ∧
    shuntInfixToRPN (tokenize "1 + x") [] =
      ShuntResult.fail ShuntError.InvalidToken [] := by
  refine ⟨?_, ?_, by decide⟩
  · intro s t h1 h2 h3 h4 h5
    unfold shuntStep
    rw [if_neg (by simp [h1]), if_neg (by simp [h2]), if_neg h3, if_neg h4, if_pos h5]
  · intro s
    rfl

/-- Witness for C8: the token "x" fails with the invalid-token error. -/
theorem claim_C8_witness :
    verifyInteger "x" = false ∧ isOperator "x" = false ∧
    "x" ≠ "(" ∧ "x" ≠ ")" ∧ "x" ≠ "" ∧
    shuntStep (ShuntState.mk [] []) "x" = StepOut.err ShuntError.InvalidToken :=
  ⟨by decide, by decide, by decide, by decide, by decide,
    claim_C8_invalid_token.1 (ShuntState.mk [] []) "x" (by decide) (by decide)
      (by decide) (by decide) (by decide)⟩

/-- C9: whenever the shunter succeeds, the postfix sequence it returns
contains no parenthesis token — neither "(" nor ")". -/
theorem claim_C9_no_parens :
    ∀ (tokens res : List String), shuntInfixToRPN tokens [] = ShuntResult.ok res →
      "(" ∉ res ∧ ")" ∉ res := by
  intro tokens res h
  cases hl : shuntLoop ⟨[], []⟩ tokens with
  | crash => simp [shuntInfixToRPN, hl] at h
  | err e => simp [shuntInfixToRPN, hl] at h
  | ok s =>
      cases hd : drainStack s.operatorStack s.outputQueue with
      | error e => simp [shuntInfixToRPN, hl, hd] at h
      | ok q =>
          simp only [shuntInfixToRPN, hl, hd, ShuntResult.ok.injEq] at h
          obtain ⟨hstk, hq⟩ := shuntLoop_inv tokens ⟨[], []⟩ s
            (fun t ht => absurd ht (List.not_mem_nil t))
            (fun t ht => absurd ht (List.not_mem_nil t)) hl
          have hq' : QueueOK q := drainStack_qok s.operatorStack s.outputQueue q hq hd
          have hres : QueueOK res := by
            rw [← h, copyQueue_eq, List.nil_append]
            exact hq'
          constructor
          · intro hm
            have hcontra := hres "(" hm
            exact absurd hcontra (by decide)
          · intro hm
            have hcontra := hres ")" hm
            exact absurd hcontra (by decide)

/-- Witness for C9: shunting the tokens ["1", ""] succeeds with result ["1"],
which contains no parenthesis. -/
theorem claim_C9_witness :
    "(" ∉ (["1"] : List String) ∧ ")" ∉ (["1"] : List String) :=
  claim_C9_no_parens ["1", ""] ["1"] (by decide)

/-- C10: whenever the shunter returns a failure, the caller-supplied
`returnArray` is exactly what it was on entry — the output queue is copied
into it only after every failure point has been passed. -/
theorem claim_C10_unchanged :
    ∀ (tokens arr arrOut : List String) (e : ShuntError),
      shuntInfixToRPN tokens arr = ShuntResult.fail e arrOut → arrOut = arr := by
  intro tokens arr arrOut e h
  cases hl : shuntLoop ⟨[], []⟩ tokens with
  | crash => simp [shuntInfixToRPN, hl] at h
  | err e' =>
      simp only [shuntInfixToRPN, hl, ShuntResult.fail.injEq] at h
      exact h.2.symm
  | ok s =>
      cases hd : drainStack s.operatorStack s.outputQueue with
      | error e' =>
          simp only [shuntInfixToRPN, hl, hd, ShuntResult.fail.injEq] at h
          exact h.2.symm
      | ok q => simp [shuntInfixToRPN, hl, hd] at h

/-- Witness for C10: shunting the invalid token "x" with returnArray ["a"]
fails and leaves ["a"] unchanged. -/
theorem claim_C10_witness :
    shuntInfixToRPN ["x"] ["a"] = ShuntResult.fail ShuntError.InvalidToken ["a"] ∧
    (["a"] : List String) = ["a"] :=
  ⟨by decide, claim_C10_unchanged ["x"] ["a"] ["a"] ShuntError.InvalidToken (by decide)⟩

end ShuntingYard
